import Mathlib

/-!
Shallow embedding of the MetaSignet verification core
(`src/verification.py`, `src/database.py`, `src/app.py`) and proofs about
its fingerprint generators and verification ledger.
-/

namespace MetaSignet

/-! ## SHA-256 (model of Python `hashlib.sha256(...).hexdigest()`)

Bytes are `Nat` values below 256; 32-bit words are `Nat` values below
2^32, with overflow made explicit by reduction modulo 2^32. -/

def add32 (a b : Nat) : Nat := (a + b) % 4294967296

def rotr32 (k x : Nat) : Nat := ((x >>> k) ||| (x <<< (32 - k))) % 4294967296

def shaCh (x y z : Nat) : Nat := (x &&& y) ^^^ ((x ^^^ 4294967295) &&& z)

def shaMaj (x y z : Nat) : Nat := (x &&& y) ^^^ (x &&& z) ^^^ (y &&& z)

def bigSigma0 (x : Nat) : Nat := rotr32 2 x ^^^ rotr32 13 x ^^^ rotr32 22 x

def bigSigma1 (x : Nat) : Nat := rotr32 6 x ^^^ rotr32 11 x ^^^ rotr32 25 x

def smallSigma0 (x : Nat) : Nat := rotr32 7 x ^^^ rotr32 18 x ^^^ (x >>> 3)

def smallSigma1 (x : Nat) : Nat := rotr32 17 x ^^^ rotr32 19 x ^^^ (x >>> 10)

/-- The 64 SHA-256 round constants of FIPS 180-4 (decimal rendering). -/
def shaK : List Nat :=
  [1116352408, 1899447441, 3049323471, 3921009573,
   961987163, 1508970993, 2453635748, 2870763221,
   3624381080, 310598401, 607225278, 1426881987,
   1925078388, 2162078206, 2614888103, 3248222580,
   3835390401, 4022224774, 264347078, 604807628,
   770255983, 1249150122, 1555081692, 1996064986,
   2554220882, 2821834349, 2952996808, 3210313671,
   3336571891, 3584528711, 113926993, 338241895,
   666307205, 773529912, 1294757372, 1396182291,
   1695183700, 1986661051, 2177026350, 2456956037,
   2730485921, 2820302411, 3259730800, 3345764771,
   3516065817, 3600352804, 4094571909, 275423344,
   430227734, 506948616, 659060556, 883997877,
   958139571, 1322822218, 1537002063, 1747873779,
   1955562222, 2024104815, 2227730452, 2361852424,
   2428436474, 2756734187, 3204031479, 3329325298]

/-- The eight SHA-256 initial hash words of FIPS 180-4 (decimal
rendering). -/
def shaH0 : List Nat :=
  [1779033703, 3144134277, 1013904242, 2773480762,
   1359893119, 2600822924, 528734635, 1541459225]

/-- Big-endian 8-byte encoding of a length value. -/
def be64 (n : Nat) : List Nat :=
  [(n >>> 56) % 256, (n >>> 48) % 256, (n >>> 40) % 256, (n >>> 32) % 256,
   (n >>> 24) % 256, (n >>> 16) % 256, (n >>> 8) % 256, n % 256]

/-- SHA-256 padding: append 0x80, zero bytes to reach 56 mod 64, then the
bit length as a big-endian 64-bit value. -/
def shaPad (msg : List Nat) : List Nat :=
  msg ++ [0x80] ++ List.replicate ((119 - msg.length % 64) % 64) 0 ++ be64 (8 * msg.length)

/-- Group bytes into big-endian 32-bit words. -/
def bytesToWords : List Nat → List Nat
  | a :: b :: c :: d :: rest => (a * 16777216 + b * 65536 + c * 256 + d) :: bytesToWords rest
  | _ => []

/-- Extend a 16-word schedule by `n` further words. -/
def extendSchedule : List Nat → Nat → List Nat
  | w, 0 => w
  | w, n + 1 =>
    let i := w.length
    let x := add32 (add32 (smallSigma1 (w.getD (i - 2) 0)) (w.getD (i - 7) 0))
                   (add32 (smallSigma0 (w.getD (i - 15) 0)) (w.getD (i - 16) 0))
    extendSchedule (w ++ [x]) n

/-- One SHA-256 compression round on the eight-word state. -/
def shaRound (st : List Nat) (kw : Nat × Nat) : List Nat :=
  match st with
  | [a, b, c, d, e, f, g, h] =>
    let t1 := add32 h (add32 (bigSigma1 e) (add32 (shaCh e f g) (add32 kw.1 kw.2)))
    let t2 := add32 (bigSigma0 a) (shaMaj a b c)
    [add32 t1 t2, a, b, c, add32 d t1, e, f, g]
  | s => s

/-- Process one 64-byte block. -/
def shaBlock (h : List Nat) (block : List Nat) : List Nat :=
  let w := extendSchedule (bytesToWords block) 48
  let st := (shaK.zip w).foldl shaRound h
  (h.zip st).map (fun p => add32 p.1 p.2)

/-- Split a byte list into 64-byte blocks; the first argument is fuel
bounding the number of blocks (each step consumes at least one byte, so
the list length is enough fuel). -/
def chunksAux : Nat → List Nat → List (List Nat)
  | 0, _ => []
  | _, [] => []
  | n + 1, x :: xs => ((x :: xs).take 64) :: chunksAux n (xs.drop 63)

/-- Split the padded message into 64-byte blocks. -/
def chunks64 (l : List Nat) : List (List Nat) := chunksAux l.length l

/-- SHA-256 digest of a byte list, as eight 32-bit words. -/
def sha256 (msg : List Nat) : List Nat :=
  (chunks64 (shaPad msg)).foldl shaBlock shaH0

def hexDigit (n : Nat) : Char := if n < 10 then Char.ofNat (48 + n) else Char.ofNat (87 + n)

/-- Lowercase hex rendering of a 32-bit word, 8 digits. -/
def word8hex (w : Nat) : String :=
  String.mk ((List.range 8).map (fun i => hexDigit ((w >>> ((7 - i) * 4)) % 16)))

/-- Hex digest string of a byte list (model of `.hexdigest()`). -/
def sha256hex (msg : List Nat) : String :=
  String.join ((sha256 msg).map word8hex)

/-! ## UTF-8 encoding (model of Python `str.encode("utf-8")`) -/

def utf8EncodeChar (c : Nat) : List Nat :=
  if c < 0x80 then [c]
  else if c < 0x800 then [0xc0 + c / 64, 0x80 + c % 64]
  else if c < 0x10000 then [0xe0 + c / 4096, 0x80 + (c / 64) % 64, 0x80 + c % 64]
  else [0xf0 + c / 262144, 0x80 + (c / 4096) % 64, 0x80 + (c / 64) % 64, 0x80 + c % 64]

def utf8Bytes (s : String) : List Nat :=
  (s.data.map (fun c => utf8EncodeChar c.toNat)).flatten

/-- Python string slice `s[:n]`. -/
def strTake (s : String) (n : Nat) : String := String.mk (s.data.take n)

/-! ## Fingerprint generators -/

/-- Post data consumed by `ContentVerifier.compute_content_hash`
(`src/verification.py`): the dict fields the function reads via `.get`,
plus the image entries the post may carry (which that function never
reads). Image entries are kept polymorphic. -/
structure PostData (α : Type) where
  text : String
  post_id : String
  author_handle : String
  images : List α

/-- Post details returned by `MetaSignetApp.get_post_details`
(`src/app.py` 150-157) and consumed by
`MetaSignetApp.compute_content_hash`, which reads only `text` and
`images`. -/
structure AppPostDetails (α : Type) where
  post_id : String
  text : String
  author : String
  timestamp : String
  uri : String
  images : List α

namespace ContentVerifier

/-- `ContentVerifier.compute_text_hash` (`src/verification.py` 22-32):
`hashlib.sha256(text.encode("utf-8")).hexdigest()`. -/
def compute_text_hash (text : String) : String := sha256hex (utf8Bytes text)

/-- `ContentVerifier.compute_content_hash` (`src/verification.py` 50-71):
SHA-256 of `f"{text}|{post_id}|{author}"`. The images of the post are
not consulted. -/
def compute_content_hash {α : Type} (post_data : PostData α) : String :=
  compute_text_hash
    (post_data.text ++ "|" ++ post_data.post_id ++ "|" ++ post_data.author_handle)

end ContentVerifier

namespace MetaSignetApp

/-- `MetaSignetApp.compute_content_hash` (`src/app.py` 162-184):
`str(hash(text)) + "_" + "_".join(image hashes)`. CPython's builtin
`hash` on strings is randomized by a process-level salt
(PYTHONHASHSEED), so the string-hash function of the running process is
passed as the parameter `pyHash`. The external perceptual-hash pipeline
(`imagehash.average_hash`, preceded by `Image.open` when an entry is raw
bytes) is passed as `avgHash` over the polymorphic image entries. -/
def compute_content_hash {α : Type} (pyHash : String → Int) (avgHash : α → String)
    (post_details : AppPostDetails α) : String :=
  toString (pyHash post_details.text) ++ "_" ++
    String.intercalate "_" (post_details.images.map avgHash)

end MetaSignetApp

/-! ## Persistent store (external collaborator)

Modelled from the spec: the hosted `verification` table itself is not
code under `src/`; spec section 6 fixes its contract — insert-if-absent
keyed by `content_hash` (unique constraint), point update keyed by
`content_hash`, point lookup, and column defaults `vouches = 0`,
`created_at = now`, with `status` defaulting to SELF_ATTESTED (= 1) per
the attest effect of spec section 4.2. A failed service call raises. -/

/-- Row of the external `verification` table. -/
structure Row where
  content_hash : String
  content_uri : String
  user_id : String
  creation_type : Nat
  creation_context : String
  status : Nat
  vouches : Nat
  created_at : String
  deriving DecidableEq

/-- State of the hosted store: the table rows, whether the service is
reachable (`avail = false` makes every client call raise), and the store
clock used for the `created_at` column default. -/
structure DbState where
  rows : List Row
  avail : Bool
  now : String
  deriving DecidableEq

inductive DbError
  | unavailable
  | uniqueViolation
  deriving DecidableEq

/-- Message text of the raised client exception, as rendered by
`st.error(f"Database error: {str(e)}")` in `src/database.py`. -/
def DbError.msg : DbError → String
  | .unavailable => "connection failed"
  | .uniqueViolation => "duplicate key value violates unique constraint"

/-- Modelled from the spec: `supabase.table("verification").insert(...)`
with the table's unique key on `content_hash`; raises on service failure
or duplicate key, otherwise returns the inserted row. -/
def dbInsert (s : DbState) (r : Row) : Except DbError (DbState × Row) :=
  if s.avail = false then .error .unavailable
  else if s.rows.any (fun q => q.content_hash == r.content_hash) then .error .uniqueViolation
  else .ok ({ s with rows := s.rows ++ [r] }, r)

/-- Modelled from the spec: select of the rows whose `content_hash`
matches; raises on service failure. -/
def dbSelect (s : DbState) (h : String) : Except DbError (List Row) :=
  if s.avail = false then .error .unavailable
  else .ok (s.rows.filter (fun q => q.content_hash == h))

/-- Modelled from the spec: update of `vouches` and `status` on every
row whose `content_hash` matches, returning the updated rows; raises on
service failure. -/
def dbUpdate (s : DbState) (h : String) (vs stat : Nat) :
    Except DbError (DbState × List Row) :=
  if s.avail = false then .error .unavailable
  else
    let rows' := s.rows.map (fun q =>
      if q.content_hash == h then { q with vouches := vs, status := stat } else q)
    .ok ({ s with rows := rows' }, rows'.filter (fun q => q.content_hash == h))

/-! ## Database layer (`src/database.py`)

Each function returns, besides its Python return value, the list of
messages it wrote to `st.error` (a UI side channel, not part of the
value returned to the caller). -/

/-- `store_verification` (`src/database.py` 23-37): inserts the five
supplied columns, the rest filled by the schema defaults; any raised
client error is caught, written to `st.error`, and converted to `None`. -/
def store_verification (s : DbState) (content_hash content_uri user_id : String)
    (creation_type : Nat) (creation_context : String) :
    DbState × Option Row × List String :=
  let newRow : Row := { content_hash := content_hash, content_uri := content_uri,
                        user_id := user_id, creation_type := creation_type,
                        creation_context := creation_context, status := 1,
                        vouches := 0, created_at := s.now }
  match dbInsert s newRow with
  | .ok (s', r) => (s', some r, [])
  | .error e => (s, none, ["Database error: " ++ e.msg])

/-- `get_verification` (`src/database.py` 39-46): point lookup returning
`response.data[0]` when any row matches, else `None`; a raised client
error is caught, logged, and converted to `None`. -/
def get_verification (s : DbState) (content_hash : String) :
    Option Row × List String :=
  match dbSelect s content_hash with
  | .ok rs => (rs.head?, [])
  | .error e => (none, ["Database error: " ++ e.msg])

/-- `add_vouch` (`src/database.py` 48-71): rereads the row, computes the
new count and the status from the threshold 3, and updates the row;
`voucher_id` is accepted but never used (vouchers are not tracked).
Errors are caught, logged, and converted to `None`. -/
def add_vouch (s : DbState) (content_hash voucher_id : String) :
    DbState × Option Row × List String :=
  let gv := get_verification s content_hash
  match gv.1 with
  | none => (s, none, gv.2)
  | some v =>
    let new_count := v.vouches + 1
    let stat := if new_count ≥ 3 then 2 else 1
    match dbUpdate s content_hash new_count stat with
    | .ok (s', rs) => (s', rs.head?, gv.2)
    | .error e => (s, none, gv.2 ++ ["Database error: " ++ e.msg])

/-! ## Verification layer (`src/verification.py`) -/

/-- Result dict of `ContentVerifier.verify_human_content`: `success`,
`message`, and (on success) the stored `verification` row. -/
structure VResult where
  success : Bool
  message : String
  verification : Option Row
  deriving DecidableEq

/-- Result dict of `ContentVerifier.vouch_for_content`: `success`,
`message`, and (on success) the reported `vouches` count. -/
structure VouchResult where
  success : Bool
  message : String
  vouches : Option Nat
  deriving DecidableEq

/-- Outcome of an attest call: new store state, the returned dict, and
the `st.error` messages emitted along the way. -/
structure VerifyOut where
  state : DbState
  res : VResult
  logs : List String
  deriving DecidableEq

/-- Outcome of a vouch call: new store state, the returned dict, and the
`st.error` messages emitted along the way. -/
structure VouchOut where
  state : DbState
  res : VouchResult
  logs : List String
  deriving DecidableEq

namespace ContentVerifier

/-- Body of the `try:` block of `verify_human_content`
(`src/verification.py` 87-107), in the exception monad; an `.error`
value is an exception escaping the block into the `except` handler. -/
def verify_human_content_body (s : DbState) (content_hash content_uri user_id : String)
    (creation_type : Nat) (creation_context : String) : Except String VerifyOut :=
  let res := store_verification s content_hash content_uri user_id creation_type creation_context
  match res.2.1 with
  | some r => .ok ⟨res.1, ⟨true, "Content verified successfully", some r⟩, res.2.2⟩
  | none => .ok ⟨res.1, ⟨false, "Failed to store verification", none⟩, res.2.2⟩

/-- `ContentVerifier.verify_human_content` (`src/verification.py`
73-112): runs the body, converting any escaping exception into a
`success: False` dict. -/
def verify_human_content (s : DbState) (content_hash content_uri user_id : String)
    (creation_type : Nat) (creation_context : String) : VerifyOut :=
  match verify_human_content_body s content_hash content_uri user_id creation_type creation_context with
  | .ok out => out
  | .error e => ⟨s, ⟨false, "Verification error: " ++ e, none⟩, []⟩

/-- Body of the `try:` block of `vouch_for_content`
(`src/verification.py` 168-197). -/
def vouch_for_content_body (s : DbState) (content_hash voucher_id : String) :
    Except String VouchOut :=
  let gv := get_verification s content_hash
  match gv.1 with
  | none => .ok ⟨s, ⟨false, "Content not found", none⟩, gv.2⟩
  | some v =>
    if v.user_id == voucher_id then
      .ok ⟨s, ⟨false, "Cannot vouch for your own content", none⟩, gv.2⟩
    else
      let av := add_vouch s content_hash voucher_id
      match av.2.1 with
      | some r => .ok ⟨av.1, ⟨true, "Successfully vouched for content", some r.vouches⟩, gv.2 ++ av.2.2⟩
      | none => .ok ⟨av.1, ⟨false, "Failed to add vouch", none⟩, gv.2 ++ av.2.2⟩

/-- `ContentVerifier.vouch_for_content` (`src/verification.py` 157-202). -/
def vouch_for_content (s : DbState) (content_hash voucher_id : String) : VouchOut :=
  match vouch_for_content_body s content_hash voucher_id with
  | .ok out => out
  | .error e => ⟨s, ⟨false, "Vouching error: " ++ e, none⟩, []⟩

end ContentVerifier

/-! ## Status dict and certificate (`src/verification.py`) -/

/-- Python value stored in a result dict. -/
inductive PyVal
  | s (v : String)
  | n (v : Nat)
  | b (v : Bool)
  deriving DecidableEq

/-- Python truthiness of a dict value. -/
def PyVal.truthy : PyVal → Bool
  | .s v => !(v == "")
  | .n v => !(v == 0)
  | .b v => v

/-- Python `str()` of a dict value, as interpolated by an f-string. -/
def PyVal.str : PyVal → String
  | .s v => v
  | .n v => toString v
  | .b v => if v then "True" else "False"

/-- Lookup in a Python dict modelled as an association list. -/
def pyLookup (d : List (String × PyVal)) (k : String) : Option PyVal :=
  (d.find? (fun p => p.1 == k)).map (fun p => p.2)

/-- Python `KeyError` raised by `d[k]` on a missing key. -/
inductive PyErr
  | keyError (k : String)
  deriving DecidableEq

/-- Python `d[k]`: the value, or a raised `KeyError`. -/
def getItem (d : List (String × PyVal)) (k : String) : Except PyErr PyVal :=
  match pyLookup d k with
  | some v => .ok v
  | none => .error (.keyError k)

namespace ContentVerifier

/-- The `creation_type_map` of `check_verification_status`
(`src/verification.py` 134-138), with the `.get(..., "Unknown")`
default. -/
def creation_type_label (n : Nat) : String :=
  if n == 1 then "Human-created"
  else if n == 2 then "AI-assisted"
  else if n == 3 then "AI-generated"
  else "Unknown"

/-- The `status_map` of `check_verification_status`
(`src/verification.py` 128-131), with the `.get(..., "Unknown")`
default. -/
def status_label (n : Nat) : String :=
  if n == 1 then "Self-attested"
  else if n == 2 then "Community-vouched"
  else "Unknown"

/-- `ContentVerifier.check_verification_status` (`src/verification.py`
114-155): point lookup plus mapping of the numeric enums to display
labels. The returned Python dict is modelled as an association list in
the order the source writes its keys; note that no `content_hash` key is
among them. -/
def check_verification_status (s : DbState) (content_hash : String) :
    List (String × PyVal) × List String :=
  let gv := get_verification s content_hash
  match gv.1 with
  | some v =>
    ([("exists", .b true), ("verified", .b true), ("creator", .s v.user_id),
      ("timestamp", .s v.created_at),
      ("creation_type", .s (creation_type_label v.creation_type)),
      ("status", .s (status_label v.status)),
      ("context", .s v.creation_context), ("vouches", .n v.vouches),
      ("uri", .s v.content_uri)], gv.2)
  | none => ([("exists", .b false), ("verified", .b false)], gv.2)

/-- The HTML template of `generate_certificate` (`src/verification.py`
226-255) with the interpolated values substituted. -/
def certHtml (hash16 creator ctype stat vouches formatted_date uri : String) : String :=
  "\n        <div style=\"border: 2px solid #1E40AF; border-radius: 8px; padding: 20px; max-width: 600px; font-family: Arial, sans-serif;\">\n" ++
  "            <div style=\"text-align: center; margin-bottom: 20px;\">\n" ++
  "                <h2 style=\"color: #1E40AF; margin: 0;\">MetaSignet</h2>\n" ++
  "                <p style=\"color: #666; margin: 5px 0;\">Human Content Verification</p>\n" ++
  "            </div>\n            \n" ++
  "            <div style=\"display: flex; margin-bottom: 20px;\">\n" ++
  "                <div style=\"flex: 1;\">\n" ++
  "                    <p><strong>Content Hash:</strong><br/>" ++ hash16 ++ "...</p>\n" ++
  "                    <p><strong>Creator:</strong><br/>" ++ creator ++ "</p>\n" ++
  "                    <p><strong>Verified As:</strong><br/>" ++ ctype ++ "</p>\n" ++
  "                </div>\n" ++
  "                <div style=\"flex: 1;\">\n" ++
  "                    <p><strong>Verification Level:</strong><br/>" ++ stat ++ "</p>\n" ++
  "                    <p><strong>Vouches:</strong><br/>" ++ vouches ++ "</p>\n" ++
  "                    <p><strong>Verified On:</strong><br/>" ++ formatted_date ++ "</p>\n" ++
  "                </div>\n            </div>\n            \n" ++
  "            <div style=\"margin-bottom: 20px;\">\n" ++
  "                <p><strong>Original Content:</strong><br/>\n" ++
  "                <a href=\"" ++ uri ++ "\" target=\"_blank\" style=\"color: #1E40AF;\">" ++ uri ++ "</a></p>\n" ++
  "            </div>\n            \n" ++
  "            <div style=\"text-align: center; margin-top: 20px; padding-top: 20px; border-top: 1px solid #ddd;\">\n" ++
  "                <p style=\"color: #666; margin: 0; font-size: 14px;\">Verify at: metasignet.app/verify/" ++ hash16 ++ "</p>\n" ++
  "            </div>\n        </div>\n        "

/-- `ContentVerifier.generate_certificate` (`src/verification.py`
204-256): pure rendering of a status dict to HTML. `formatTs` is the
external `datetime.fromisoformat` plus `strftime` composite applied to a
string timestamp (the bare `except:` makes it fall back to the raw
string when parsing fails, so the composite is total on strings).
Returns `none` when the dict is empty or not marked `exists`; dict keys
are read in the order the source reads them, and a missing key raises
`KeyError`. Python slices `[:16]` are modelled on the string rendering
of the value. -/
def generate_certificate (formatTs : String → String)
    (verification : List (String × PyVal)) : Except PyErr (Option String) := do
  if verification.isEmpty || !((pyLookup verification "exists").getD (.b false)).truthy then
    return none
  let formatted_date ←
    match pyLookup verification "timestamp" with
    | none => Except.error (PyErr.keyError "timestamp")
    | some (.s t) => pure (formatTs t)
    | some v => pure v.str
  let ch ← getItem verification "content_hash"
  let creator ← getItem verification "creator"
  let ctype ← getItem verification "creation_type"
  let stat ← getItem verification "status"
  let vouches ← getItem verification "vouches"
  let uri ← getItem verification "uri"
  pure (some (certHtml (strTake ch.str 16) creator.str ctype.str stat.str
    vouches.str formatted_date uri.str))

end ContentVerifier

/-! ## Session-state ledger (`src/app.py`, local path) -/

/-- Record stored in `st.session_state.human_verified_content`
(`src/app.py` 193-201), with the dict keys hash, uri, type, context,
timestamp, status, vouches. -/
structure LocalRec where
  hash : String
  uri : String
  type : Nat
  context : String
  timestamp : String
  status : String
  vouches : Nat
  deriving DecidableEq

/-- The slice of `st.session_state` the local verification path uses:
the `w3_connected` flag and the `human_verified_content` dict (absent
until first created). -/
structure AppState where
  w3_connected : Bool
  human_verified_content : Option (List (String × LocalRec))
  deriving DecidableEq

/-- Python dict assignment `m[k] = v` (insert or overwrite). -/
def dictSet (m : List (String × LocalRec)) (k : String) (v : LocalRec) :
    List (String × LocalRec) :=
  if m.any (fun p => p.1 == k) then m.map (fun p => if p.1 == k then (k, v) else p)
  else m ++ [(k, v)]

/-- Python dict read `m[k]` combined with the `k in m` guard. -/
def dictGet (m : List (String × LocalRec)) (k : String) : Option LocalRec :=
  (m.find? (fun p => p.1 == k)).map (fun p => p.2)

/-- Result dict of `MetaSignetApp.verify_human_content`. -/
structure AppVerifyResult where
  success : Bool
  message : String
  tx_hash : Option String
  deriving DecidableEq

/-- Result dict of `MetaSignetApp.vouch_for_content` (`message` and
`vouches` keys are each present only on some paths). -/
structure AppVouchResult where
  success : Bool
  message : Option String
  vouches : Option Nat
  tx_hash : Option String
  deriving DecidableEq

namespace MetaSignetApp

/-- The placeholder transaction hash `'0x' + '0' * 64` of the
blockchain branches. -/
def fakeTxHash : String := "0x" ++ String.mk (List.replicate 64 '0')

/-- `MetaSignetApp.verify_human_content` (`src/app.py` 186-222). With no
blockchain connection it stores the record in the session dict —
unconditionally overwriting any record already present for the hash —
with status SELF_ATTESTED, zero vouches, and the current time (`now`
models `datetime.now().isoformat()`). The connected branch is the
placeholder blockchain path returning a fake transaction hash. -/
def verify_human_content (st : AppState) (now content_hash post_uri : String)
    (creation_type : Nat) (creation_context : String) : AppState × AppVerifyResult :=
  if st.w3_connected = false then
    let m := st.human_verified_content.getD []
    let rec1 : LocalRec :=
      ⟨content_hash, post_uri, creation_type, creation_context, now, "SELF_ATTESTED", 0⟩
    ({ st with human_verified_content := some (dictSet m content_hash rec1) },
     ⟨true, "Content verified locally", none⟩)
  else
    (st, ⟨true, "Content verified on blockchain", some fakeTxHash⟩)

/-- `MetaSignetApp.vouch_for_content` (`src/app.py` 224-259): takes no
voucher identity; on the local path it increments the vouch count and
promotes the status to COMMUNITY_VOUCHED at 3 or more vouches (and
never demotes). -/
def vouch_for_content (st : AppState) (content_hash : String) :
    AppState × AppVouchResult :=
  if st.w3_connected = false then
    match st.human_verified_content with
    | some m =>
      match dictGet m content_hash with
      | some r =>
        let r1 := { r with vouches := r.vouches + 1 }
        let r2 := if r1.vouches ≥ 3 then { r1 with status := "COMMUNITY_VOUCHED" } else r1
        ({ st with human_verified_content := some (dictSet m content_hash r2) },
         ⟨true, none, some r2.vouches, none⟩)
      | none => (st, ⟨false, some "Content not found", none, none⟩)
    | none => (st, ⟨false, some "Content not found", none, none⟩)
  else
    (st, ⟨true, some "Vouched on blockchain", none, some fakeTxHash⟩)

end MetaSignetApp

/-! ## Reachability and invariants -/

/-- One ledger mutation against the hosted store: an attest call, a
vouch call, or an environment change (clock tick, service outage or
recovery) that does not touch the rows. -/
inductive DbStep : DbState → DbState → Prop
  | attest (s : DbState) (ch uri uid : String) (ct : Nat) (cc : String) :
      DbStep s (ContentVerifier.verify_human_content s ch uri uid ct cc).state
  | vouch (s : DbState) (ch vid : String) :
      DbStep s (ContentVerifier.vouch_for_content s ch vid).state
  | env (s : DbState) (b : Bool) (t : String) : DbStep s ⟨s.rows, b, t⟩

/-- Store states reachable from an empty table through attest and vouch
calls. -/
inductive DbReach : DbState → Prop
  | init (b : Bool) (t : String) : DbReach ⟨[], b, t⟩
  | step {s s' : DbState} : DbReach s → DbStep s s' → DbReach s'

/-- Status/vouches invariant of a stored row, with the numeric enum of
the schema: 2 = COMMUNITY_VOUCHED exactly when `vouches ≥ 3`, else
1 = SELF_ATTESTED. -/
def dbInv (s : DbState) : Prop :=
  ∀ r ∈ s.rows, r.status = if r.vouches ≥ 3 then 2 else 1

/-- One mutation of the session-state ledger: an attest or a vouch call
on the local path, or a clock change. -/
inductive AppStep : AppState → AppState → Prop
  | attest (st : AppState) (now ch uri : String) (ct : Nat) (cc : String) :
      AppStep st (MetaSignetApp.verify_human_content st now ch uri ct cc).1
  | vouch (st : AppState) (ch : String) :
      AppStep st (MetaSignetApp.vouch_for_content st ch).1

/-- Session states reachable from a fresh session. -/
inductive AppReach : AppState → Prop
  | init (b : Bool) : AppReach ⟨b, none⟩
  | step {s s' : AppState} : AppReach s → AppStep s s' → AppReach s'

/-- Status/vouches invariant of a session-ledger record. -/
def appInv (st : AppState) : Prop :=
  ∀ p ∈ st.human_verified_content.getD [],
    p.2.status = if p.2.vouches ≥ 3 then "COMMUNITY_VOUCHED" else "SELF_ATTESTED"

/-! ## Concrete scenario states -/

/-- Empty, available store with some clock value. -/
def demoDb0 : DbState := ⟨[], true, "2025-01-01T00:00:00"⟩

/-- Store after alice attests fingerprint `fp`. -/
def demoAttested : DbState :=
  (ContentVerifier.verify_human_content demoDb0 "fp" "uri" "alice" 1 "ctx").state

/-- First, second, third and fourth vouch calls by distinct voucher
identities. -/
def demoV1 : VouchOut := ContentVerifier.vouch_for_content demoAttested "fp" "bob"

def demoV2 : VouchOut := ContentVerifier.vouch_for_content demoV1.state "fp" "carol"

def demoV3 : VouchOut := ContentVerifier.vouch_for_content demoV2.state "fp" "dave"

def demoV4 : VouchOut := ContentVerifier.vouch_for_content demoV3.state "fp" "erin"

/-- A stored row for fingerprint `fp` attested by alice. -/
def demoRow : Row := ⟨"fp", "uri", "alice", 1, "ctx", 1, 0, "t0"⟩

/-- Available store already holding `demoRow`. -/
def demoDbDup : DbState := ⟨[demoRow], true, "t1"⟩

/-- Unavailable store (every client call raises). -/
def demoDbDown : DbState := ⟨[], false, "t1"⟩

/-- Fresh session state, no blockchain connection. -/
def demoApp0 : AppState := ⟨false, none⟩

/-- Session state after a first local attestation of `fp`. -/
def demoApp1 : AppState :=
  (MetaSignetApp.verify_human_content demoApp0 "t1" "fp" "uri1" 1 "c1").1

/-- Second local attestation of the same fingerprint `fp`, with
different locator, creation type, context and time. -/
def demoApp2 : AppState × AppVerifyResult :=
  MetaSignetApp.verify_human_content demoApp1 "t2" "fp" "uri2" 3 "c2"

/-! ## Theorems -/

/-- Sanity anchor: the embedded generator reproduces the standard
SHA-256 test vector for "abc". -/
theorem compute_text_hash_test_vector :
    ContentVerifier.compute_text_hash "abc" =
      "ba7816bf8f01cfea414140de5dae2223b00361a396177a9cb410ff61f20015ad" := by
  decide

/-- C2: the app-path fingerprint is NOT invariant under the process-level
string-hash salt. `MetaSignetApp.compute_content_hash` embeds
`str(hash(text))`, and CPython's builtin string hash varies with the
process salt (PYTHONHASHSEED); under two process hash functions that
differ on the post text (here the constant functions 0 and 1, standing
for two runs with different salts), the same post yields two different
fingerprints, refuting byte-identical output across process runs. -/
theorem c2_fingerprint_depends_on_process_hash_salt :
    MetaSignetApp.compute_content_hash (fun _ => (0 : Int)) (fun _ : Nat => "")
        ⟨"12345", "Example post text would appear here", "user.bsky.social", "t0", "u", []⟩ ≠
      MetaSignetApp.compute_content_hash (fun _ => (1 : Int)) (fun _ : Nat => "")
        ⟨"12345", "Example post text would appear here", "user.bsky.social", "t0", "u", []⟩ := by
  decide

/-- C8: separator stability of the two-component fingerprint of
`MetaSignetApp.compute_content_hash`. For any text, the fingerprint with
no images and the fingerprint with one image share the identical
text-hash segment `str(hash(text))` followed by the separator; with no
images the image component is empty but the separator is still present,
and the two fingerprints differ only in the image segment after it. -/
theorem c8_separator_stability {α : Type} (pyHash : String → Int) (avgHash : α → String)
    (pid t ah ts uri : String) (img : α) :
    MetaSignetApp.compute_content_hash pyHash avgHash ⟨pid, t, ah, ts, uri, []⟩ =
      toString (pyHash t) ++ "_" ∧
    MetaSignetApp.compute_content_hash pyHash avgHash ⟨pid, t, ah, ts, uri, [img]⟩ =
      toString (pyHash t) ++ "_" ++ avgHash img := by
  constructor <;>
    simp [MetaSignetApp.compute_content_hash, String.intercalate, String.intercalate.go]

/-- C3 counterexample: two posts with identical text and identical
(empty) image sequences but different post ids get different
fingerprints from `ContentVerifier.compute_content_hash`, refuting that
the fingerprint is a function of text and image bytes only. -/
theorem c3_fingerprint_not_content_only_cex :
    (⟨"t", "1", "a", []⟩ : PostData Nat).text = (⟨"t", "2", "a", []⟩ : PostData Nat).text ∧
    (⟨"t", "1", "a", []⟩ : PostData Nat).images = (⟨"t", "2", "a", []⟩ : PostData Nat).images ∧
    ContentVerifier.compute_content_hash (⟨"t", "1", "a", []⟩ : PostData Nat) ≠
      ContentVerifier.compute_content_hash (⟨"t", "2", "a", []⟩ : PostData Nat) := by
  refine ⟨rfl, rfl, ?_⟩
  decide

/-- C3 amended: `ContentVerifier.compute_content_hash` is a function of
the post's text, post id, and author handle — the images are ignored
entirely — while `MetaSignetApp.compute_content_hash` is a function of
text and images only (for the process's fixed hash and perceptual-hash
functions). -/
theorem c3_fingerprint_dependencies :
    (∀ {α β : Type} (p : PostData α) (q : PostData β),
      p.text = q.text → p.post_id = q.post_id → p.author_handle = q.author_handle →
      ContentVerifier.compute_content_hash p = ContentVerifier.compute_content_hash q) ∧
    (∀ {α : Type} (pyHash : String → Int) (avgHash : α → String)
      (p q : AppPostDetails α), p.text = q.text → p.images = q.images →
      MetaSignetApp.compute_content_hash pyHash avgHash p =
        MetaSignetApp.compute_content_hash pyHash avgHash q) := by
  constructor
  · intro α β p q ht hp ha
    simp [ContentVerifier.compute_content_hash, ht, hp, ha]
  · intro α pyHash avgHash p q ht hi
    simp [MetaSignetApp.compute_content_hash, ht, hi]

/-- Lookup on an unavailable store: the raised error is logged and
converted to `None`. -/
theorem get_verification_unavail (s : DbState) (ch : String) (ha : s.avail = false) :
    get_verification s ch = (none, ["Database error: " ++ DbError.msg .unavailable]) := by
  simp [get_verification, dbSelect, ha]

/-- Lookup on an available store returns the first matching row and logs
nothing. -/
theorem get_verification_avail (s : DbState) (ch : String) (ha : s.avail = true) :
    get_verification s ch =
      ((s.rows.filter (fun q => q.content_hash == ch)).head?, []) := by
  simp [get_verification, dbSelect, ha]

/-- A successful lookup implies the store was available. -/
theorem get_some_avail {s : DbState} {ch : String} {v : Row}
    (hv : (get_verification s ch).1 = some v) : s.avail = true := by
  by_cases ha : s.avail = true
  · exact ha
  · rw [get_verification_unavail s ch (by simpa using ha)] at hv
    simp at hv

/-- A successful lookup returns the head of the matching rows. -/
theorem get_some_head {s : DbState} {ch : String} {v : Row}
    (hv : (get_verification s ch).1 = some v) :
    (s.rows.filter (fun q => q.content_hash == ch)).head? = some v := by
  rw [get_verification_avail s ch (get_some_avail hv)] at hv
  exact hv

/-- The row returned by a successful lookup carries the looked-up hash
and is stored. -/
theorem get_some_row {s : DbState} {ch : String} {v : Row}
    (hv : (get_verification s ch).1 = some v) :
    v.content_hash = ch ∧ v ∈ s.rows := by
  have hh := get_some_head hv
  cases hf : s.rows.filter (fun q => q.content_hash == ch) with
  | nil => rw [hf] at hh; simp at hh
  | cons a as =>
    rw [hf] at hh
    simp at hh
    have hmem : a ∈ s.rows.filter (fun q => q.content_hash == ch) := by
      rw [hf]; exact List.mem_cons_self _ _
    have hpred := List.of_mem_filter hmem
    rw [← hh]
    exact ⟨by simpa using hpred, List.mem_of_mem_filter hmem⟩

/-- Attest on an unavailable store: error logged, `None` returned, state
unchanged. -/
theorem store_verification_unavail (s : DbState) (ch uri uid : String) (ct : Nat)
    (cc : String) (ha : s.avail = false) :
    store_verification s ch uri uid ct cc =
      (s, none, ["Database error: " ++ DbError.msg .unavailable]) := by
  simp [store_verification, dbInsert, ha]

/-- Attest on a fingerprint that already has a row: the unique-key
violation (or the outage) is logged and converted to `None`; the state
is unchanged. -/
theorem store_verification_exists {s : DbState} {ch : String} (uri uid : String)
    (ct : Nat) (cc : String) {r : Row} (hr : r ∈ s.rows) (hh : r.content_hash = ch) :
    (store_verification s ch uri uid ct cc).1 = s ∧
    (store_verification s ch uri uid ct cc).2.1 = none := by
  unfold store_verification dbInsert
  by_cases ha : s.avail = false
  · simp [ha]
  · have hany : s.rows.any (fun q => q.content_hash == ch) = true :=
      List.any_eq_true.mpr ⟨r, hr, by simp [hh]⟩
    simp [ha, hany]

/-- Every row present after an attest call was already stored or is the
freshly defaulted row with status SELF_ATTESTED and zero vouches. -/
theorem store_rows_good (s : DbState) (ch uri uid : String) (ct : Nat) (cc : String) :
    ∀ r ∈ (store_verification s ch uri uid ct cc).1.rows,
      r ∈ s.rows ∨ (r.status = 1 ∧ r.vouches = 0) := by
  intro r hr
  unfold store_verification dbInsert at hr
  by_cases ha : s.avail = false
  · simp [ha] at hr; exact Or.inl hr
  · by_cases hany : s.rows.any (fun q => q.content_hash == ch) = true
    · simp [ha, hany] at hr; exact Or.inl hr
    · simp [ha, hany] at hr
      rcases hr with hr | hr
      · exact Or.inl hr
      · subst hr; exact Or.inr ⟨rfl, rfl⟩

/-- The attest wrapper's resulting store state is that of the database
call. -/
theorem verify_state_eq (s : DbState) (ch uri uid : String) (ct : Nat) (cc : String) :
    (ContentVerifier.verify_human_content s ch uri uid ct cc).state =
      (store_verification s ch uri uid ct cc).1 := by
  unfold ContentVerifier.verify_human_content ContentVerifier.verify_human_content_body
  cases h : (store_verification s ch uri uid ct cc).2.1 <;> simp [h]

/-- When the database call returns `None`, the attest wrapper reports
the generic failure dict. -/
theorem verify_res_fail (s : DbState) (ch uri uid : String) (ct : Nat) (cc : String)
    (h : (store_verification s ch uri uid ct cc).2.1 = none) :
    (ContentVerifier.verify_human_content s ch uri uid ct cc).res =
      ⟨false, "Failed to store verification", none⟩ ∧
    (ContentVerifier.verify_human_content s ch uri uid ct cc).logs =
      (store_verification s ch uri uid ct cc).2.2 := by
  unfold ContentVerifier.verify_human_content ContentVerifier.verify_human_content_body
  simp [h]

/-- When the database call returns the stored row, the attest wrapper
reports success with that row. -/
theorem verify_res_ok (s : DbState) (ch uri uid : String) (ct : Nat) (cc : String)
    (r : Row) (h : (store_verification s ch uri uid ct cc).2.1 = some r) :
    (ContentVerifier.verify_human_content s ch uri uid ct cc).res =
      ⟨true, "Content verified successfully", some r⟩ := by
  unfold ContentVerifier.verify_human_content ContentVerifier.verify_human_content_body
  simp [h]

/-- Vouch on a fingerprint with no visible record (missing or store
outage): not-found dict, state unchanged. -/
theorem vouch_none_chr (s : DbState) (ch vid : String)
    (hv : (get_verification s ch).1 = none) :
    ContentVerifier.vouch_for_content s ch vid =
      ⟨s, ⟨false, "Content not found", none⟩, (get_verification s ch).2⟩ := by
  unfold ContentVerifier.vouch_for_content ContentVerifier.vouch_for_content_body
  simp [hv]

/-- Vouch by the record's own attester: rejection dict, state unchanged,
nothing logged. -/
theorem vouch_self_chr (s : DbState) (ch vid : String) (v : Row)
    (hv : (get_verification s ch).1 = some v) (he : v.user_id = vid) :
    ContentVerifier.vouch_for_content s ch vid =
      ⟨s, ⟨false, "Cannot vouch for your own content", none⟩, []⟩ := by
  have hlog : (get_verification s ch).2 = [] := by
    rw [get_verification_avail s ch (get_some_avail hv)]
  unfold ContentVerifier.vouch_for_content ContentVerifier.vouch_for_content_body
  simp [hv, he, hlog]

/-- The update written by a successful vouch on the row `v` read back
for fingerprint `ch`. -/
def vouchUpd (ch : String) (v : Row) : Row → Row := fun q =>
  if q.content_hash == ch
  then { q with vouches := v.vouches + 1, status := if v.vouches + 1 ≥ 3 then 2 else 1 }
  else q

/-- The database-layer vouch on a visible record: updates the matching
rows, returns the updated head row, logs nothing. -/
theorem add_vouch_ok_chr (s : DbState) (ch vid : String) (v : Row)
    (hv : (get_verification s ch).1 = some v) :
    add_vouch s ch vid =
      ({ s with rows := s.rows.map (vouchUpd ch v) }, some (vouchUpd ch v v), []) := by
  have ha := get_some_avail hv
  have hh := get_some_head hv
  have hlog : (get_verification s ch).2 = [] := by rw [get_verification_avail s ch ha]
  have hcomm : ∀ q : Row, (vouchUpd ch v q).content_hash = q.content_hash := by
    intro q; unfold vouchUpd; by_cases h : q.content_hash == ch <;> simp [h]
  have hhead : ((s.rows.map (vouchUpd ch v)).filter (fun q => q.content_hash == ch)).head? =
      some (vouchUpd ch v v) := by
    have hfm : (s.rows.map (vouchUpd ch v)).filter (fun q => q.content_hash == ch) =
        (s.rows.filter (fun q => q.content_hash == ch)).map (vouchUpd ch v) := by
      rw [List.filter_map]
      congr 1
      apply List.filter_congr
      intro q _
      simp [Function.comp, hcomm q]
    rw [hfm, List.head?_map, hh]
    rfl
  unfold add_vouch dbUpdate
  simp only [hv, ha, Bool.true_eq_false, if_false]
  exact Prod.ext rfl (Prod.ext hhead hlog)

/-- A vouch by a non-attester on an existing record succeeds: the
matching row gets `vouches + 1` and the recomputed status, the reported
count is `v.vouches + 1`, and nothing is logged. -/
theorem vouch_ok_chr (s : DbState) (ch vid : String) (v : Row)
    (hv : (get_verification s ch).1 = some v) (hne : v.user_id ≠ vid) :
    ContentVerifier.vouch_for_content s ch vid =
      ⟨{ s with rows := s.rows.map (vouchUpd ch v) },
       ⟨true, "Successfully vouched for content", some (v.vouches + 1)⟩, []⟩ := by
  have hhash : v.content_hash = ch := (get_some_row hv).1
  have hlog : (get_verification s ch).2 = [] := by
    rw [get_verification_avail s ch (get_some_avail hv)]
  have hbeq : (v.user_id == vid) = false := by simp [hne]
  have hupd : (vouchUpd ch v v).vouches = v.vouches + 1 := by
    unfold vouchUpd; simp [hhash]
  unfold ContentVerifier.vouch_for_content ContentVerifier.vouch_for_content_body
  simp only [hv, hbeq, add_vouch_ok_chr s ch vid v hv, hlog, hupd,
    Bool.false_eq_true, if_false, List.nil_append, List.append_nil]

/-- Rows after an attest call: previously stored, or freshly defaulted. -/
theorem attest_rows_good (s : DbState) (ch uri uid : String) (ct : Nat) (cc : String) :
    ∀ r ∈ (ContentVerifier.verify_human_content s ch uri uid ct cc).state.rows,
      r ∈ s.rows ∨ (r.status = 1 ∧ r.vouches = 0) := by
  rw [verify_state_eq]
  exact store_rows_good s ch uri uid ct cc

/-- Rows after a vouch call: previously stored, or carrying the status
recomputed from the new count. -/
theorem vouch_rows_good (s : DbState) (ch vid : String) :
    ∀ r ∈ (ContentVerifier.vouch_for_content s ch vid).state.rows,
      r ∈ s.rows ∨ r.status = if r.vouches ≥ 3 then 2 else 1 := by
  intro r hr
  cases hv : (get_verification s ch).1 with
  | none => rw [vouch_none_chr s ch vid hv] at hr; exact Or.inl hr
  | some v =>
    by_cases he : v.user_id = vid
    · rw [vouch_self_chr s ch vid v hv he] at hr; exact Or.inl hr
    · rw [vouch_ok_chr s ch vid v hv he] at hr
      simp only [List.mem_map] at hr
      rcases hr with ⟨q, hq, rfl⟩
      unfold vouchUpd
      by_cases hh : q.content_hash == ch
      · right; simp [hh]
      · left; simpa [hh] using hq

/-- The row invariant holds in every store state reachable through
attest and vouch calls. -/
theorem dbInv_of_reach : ∀ s : DbState, DbReach s → dbInv s := by
  intro s h
  induction h with
  | init b t => intro r hr; simp at hr
  | step _ hstep ih =>
    cases hstep with
    | attest ch uri uid ct cc =>
      intro r hr
      rcases attest_rows_good _ ch uri uid ct cc r hr with h1 | h1
      · exact ih r h1
      · rw [h1.1, h1.2]; simp
    | vouch ch vid =>
      intro r hr
      rcases vouch_rows_good _ ch vid r hr with h1 | h1
      · exact ih r h1
      · exact h1
    | env b t =>
      intro r hr
      exact ih r hr

/-- Entries after a Python dict assignment: previously present, or the
assigned pair. -/
theorem mem_dictSet (m : List (String × LocalRec)) (k : String) (v : LocalRec) :
    ∀ p ∈ dictSet m k v, p ∈ m ∨ p = (k, v) := by
  intro p hp
  unfold dictSet at hp
  by_cases h : m.any (fun q => q.1 == k)
  · simp only [h, if_true, List.mem_map] at hp
    rcases hp with ⟨q, hq, rfl⟩
    by_cases hk : q.1 == k
    · right; simp [hk]
    · left; simpa [hk] using hq
  · simp only [h] at hp
    simp at hp
    rcases hp with hp | hp
    · exact Or.inl hp
    · exact Or.inr (by simp [hp])

/-- A successful dict read returns a stored pair. -/
theorem dictGet_some_mem {m : List (String × LocalRec)} {k : String} {r : LocalRec}
    (h : dictGet m k = some r) : (k, r) ∈ m := by
  unfold dictGet at h
  cases hf : m.find? (fun p => p.1 == k) with
  | none => rw [hf] at h; simp at h
  | some p =>
    rw [hf] at h
    simp at h
    have hm := List.mem_of_find?_eq_some hf
    have hk : p.1 = k := by simpa using List.find?_some hf
    have hpkr : p = (k, r) := by
      cases p with
      | mk a b =>
        simp at hk h
        simp [hk, h]
    rwa [hpkr] at hm

/-- Reading back the key just assigned returns the assigned value. -/
theorem dictGet_dictSet (m : List (String × LocalRec)) (k : String) (v : LocalRec) :
    dictGet (dictSet m k v) k = some v := by
  unfold dictSet dictGet
  by_cases h : m.any (fun q => q.1 == k)
  · simp only [h, if_true]
    rw [List.find?_map]
    have hpred : ((fun p : String × LocalRec => p.1 == k) ∘
        fun p => if p.1 == k then (k, v) else p) = fun p : String × LocalRec => p.1 == k := by
      funext p
      by_cases hk : p.1 == k <;> simp [Function.comp, hk]
    rw [hpred]
    rcases List.any_eq_true.mp h with ⟨x, hx, hpx⟩
    cases hfind : m.find? (fun p => p.1 == k) with
    | none => exact absurd hpx (List.find?_eq_none.mp hfind x hx)
    | some p0 =>
      have hp0 : p0.1 = k := by simpa using List.find?_some hfind
      simp [hfind, hp0]
  · have h' : m.any (fun q => q.1 == k) = false := Bool.eq_false_iff.mpr h
    simp only [h', Bool.false_eq_true, if_false]
    rw [List.find?_append]
    have hnone : m.find? (fun p : String × LocalRec => p.1 == k) = none := by
      rw [List.find?_eq_none]
      intro x hx hpx
      exact absurd (List.any_eq_true.mpr ⟨x, hx, hpx⟩) h
    simp [hnone, List.find?]

/-- Local-path attest: characterization of the session write (an
unconditional dict assignment). -/
theorem app_verify_chr (st : AppState) (now ch uri : String) (ct : Nat) (cc : String)
    (hw : st.w3_connected = false) :
    MetaSignetApp.verify_human_content st now ch uri ct cc =
      ({ st with human_verified_content := some (dictSet (st.human_verified_content.getD [])
          ch ⟨ch, uri, ct, cc, now, "SELF_ATTESTED", 0⟩) },
       ⟨true, "Content verified locally", none⟩) := by
  simp [MetaSignetApp.verify_human_content, hw]

/-- The record written by an app-path vouch on the read-back record `r`:
count bumped, status promoted at the threshold, otherwise kept. -/
def appVouchUpd (r : LocalRec) : LocalRec :=
  let r1 := { r with vouches := r.vouches + 1 }
  if r1.vouches ≥ 3 then { r1 with status := "COMMUNITY_VOUCHED" } else r1

/-- Entries after an app-path vouch: previously present, or the vouched
record with its count bumped and status promoted at the threshold. -/
theorem app_vouch_rows_good (st : AppState) (ch : String) :
    ∀ p ∈ (MetaSignetApp.vouch_for_content st ch).1.human_verified_content.getD [],
      p ∈ st.human_verified_content.getD [] ∨
      ∃ r : LocalRec, dictGet (st.human_verified_content.getD []) ch = some r ∧
        p = (ch, appVouchUpd r) := by
  intro p hp
  unfold MetaSignetApp.vouch_for_content at hp
  split at hp
  · split at hp
    · rename_i m hm
      split at hp
      · rename_i r hr
        rcases mem_dictSet _ _ _ p hp with h1 | h1
        · exact Or.inl (by rw [hm]; simpa using h1)
        · exact Or.inr ⟨r, by rw [hm]; simpa using hr, by rw [h1]; rfl⟩
      · exact Or.inl hp
    · exact Or.inl hp
  · exact Or.inl hp

/-- The session-ledger invariant holds in every reachable session
state. -/
theorem appInv_of_reach : ∀ st : AppState, AppReach st → appInv st := by
  intro st h
  induction h with
  | init b => intro p hp; simp at hp
  | step _ hstep ih =>
    cases hstep with
    | attest now ch uri ct cc =>
      rename_i st1 _
      by_cases hw : st1.w3_connected = false
      · rw [app_verify_chr st1 now ch uri ct cc hw]
        intro p hp
        rcases mem_dictSet _ _ _ p hp with h1 | h1
        · exact ih p h1
        · rw [h1]; simp
      · have hw' : st1.w3_connected = true := by simpa using hw
        intro p hp
        apply ih
        unfold MetaSignetApp.verify_human_content at hp
        simpa [hw', Bool.true_eq_false, if_false] using hp
    | vouch ch =>
      rename_i st1 _
      intro p hp
      rcases app_vouch_rows_good st1 ch p hp with h1 | h1
      · exact ih p h1
      · rcases h1 with ⟨r, hr, rfl⟩
        have hinv := ih (ch, r) (dictGet_some_mem hr)
        simp only at hinv
        unfold appVouchUpd
        by_cases h3 : r.vouches + 1 ≥ 3
        · simp [h3]
        · have hlt : ¬ r.vouches ≥ 3 := by omega
          simp [hlt] at hinv
          simp [h3, hlt, hinv]

/-- C3 witness: the amended dependency statement applied at two concrete
posts that agree on text, post id and author but have entirely different
image lists (even of different types): the verifier-path fingerprints
coincide. -/
theorem c3_fingerprint_dependencies_witness :
    ContentVerifier.compute_content_hash (⟨"t", "1", "a", [0, 1]⟩ : PostData Nat) =
      ContentVerifier.compute_content_hash (⟨"t", "1", "a", ["x"]⟩ : PostData String) :=
  c3_fingerprint_dependencies.1 _ _ rfl rfl rfl

/-- C1 counterexample: on the session ledger a second attestation of the
same fingerprint `fp` does not fail — it reports success and the stored
record now holds the second call's locator, creation type, context and
timestamp, which differ from the first call's fields. -/
theorem c1_second_attest_not_rejected_cex :
    demoApp2.2.success = true ∧
    demoApp2.1.human_verified_content =
      some [("fp", ⟨"fp", "uri2", 3, "c2", "t2", "SELF_ATTESTED", 0⟩)] ∧
    (⟨"fp", "uri2", 3, "c2", "t2", "SELF_ATTESTED", 0⟩ : LocalRec) ≠
      ⟨"fp", "uri1", 1, "c1", "t1", "SELF_ATTESTED", 0⟩ := by
  refine ⟨by decide, by decide, by decide⟩

/-- C1 amended: on the database-backed ledger a second attestation of an
already-attested fingerprint is rejected (the unique-key insert fails)
with the generic dict `success: False, "Failed to store verification"` —
not with a distinguishable AlreadyAttested kind — and leaves the store,
hence the first record's fields, unchanged; on the session ledger a
second attestation instead succeeds and overwrites the record with the
second call's fields (an upsert). -/
theorem c1_second_attest_behavior :
    (∀ (s : DbState) (ch uri uid : String) (ct : Nat) (cc : String) (r : Row),
      r ∈ s.rows → r.content_hash = ch →
      (ContentVerifier.verify_human_content s ch uri uid ct cc).state = s ∧
      (ContentVerifier.verify_human_content s ch uri uid ct cc).res =
        ⟨false, "Failed to store verification", none⟩) ∧
    (∀ (st : AppState) (now ch uri : String) (ct : Nat) (cc : String),
      st.w3_connected = false →
      (MetaSignetApp.verify_human_content st now ch uri ct cc).2.success = true ∧
      dictGet ((MetaSignetApp.verify_human_content st now ch uri ct
          cc).1.human_verified_content.getD []) ch =
        some ⟨ch, uri, ct, cc, now, "SELF_ATTESTED", 0⟩) := by
  constructor
  · intro s ch uri uid ct cc r hr hh
    have hst := store_verification_exists uri uid ct cc hr hh
    exact ⟨by rw [verify_state_eq]; exact hst.1,
      (verify_res_fail s ch uri uid ct cc hst.2).1⟩
  · intro st now ch uri ct cc hw
    rw [app_verify_chr st now ch uri ct cc hw]
    exact ⟨rfl, by simpa using dictGet_dictSet (st.human_verified_content.getD []) ch _⟩

/-- C1 witness: the amended behavior at a store already holding a record
for `fp` and at a fresh session. -/
theorem c1_second_attest_behavior_witness :
    ((ContentVerifier.verify_human_content demoDbDup "fp" "u2" "bob" 2 "cc2").state =
        demoDbDup ∧
     (ContentVerifier.verify_human_content demoDbDup "fp" "u2" "bob" 2 "cc2").res =
        ⟨false, "Failed to store verification", none⟩) ∧
    ((MetaSignetApp.verify_human_content demoApp0 "t1" "fp" "uri1" 1 "c1").2.success = true ∧
     dictGet ((MetaSignetApp.verify_human_content demoApp0 "t1" "fp" "uri1" 1
         "c1").1.human_verified_content.getD []) "fp" =
       some ⟨"fp", "uri1", 1, "c1", "t1", "SELF_ATTESTED", 0⟩) :=
  ⟨c1_second_attest_behavior.1 demoDbDup "fp" "u2" "bob" 2 "cc2" demoRow (by decide) rfl,
   c1_second_attest_behavior.2 demoApp0 "t1" "fp" "uri1" 1 "c1" rfl⟩

/-- C4: in every store state reachable through attest and vouch calls,
every stored row has status COMMUNITY_VOUCHED (2) exactly when its vouch
count is at least 3 and status SELF_ATTESTED (1) otherwise; the same
invariant, with the string labels, holds for every record of every
reachable session-ledger state. -/
theorem c4_status_invariant (s : DbState) (hs : DbReach s) (t : AppState)
    (ht : AppReach t) : dbInv s ∧ appInv t :=
  ⟨dbInv_of_reach s hs, appInv_of_reach t ht⟩

/-- C4 witness: the invariant at the concrete reachable states after one
attestation on each ledger. -/
theorem c4_status_invariant_witness : dbInv demoAttested ∧ appInv demoApp1 :=
  c4_status_invariant demoAttested
    (DbReach.step (DbReach.init true "2025-01-01T00:00:00")
      (DbStep.attest demoDb0 "fp" "uri" "alice" 1 "ctx"))
    demoApp1
    (AppReach.step (AppReach.init false)
      (AppStep.attest demoApp0 "t1" "fp" "uri1" 1 "c1"))

/-- C5: each successful vouch (record visible, voucher differs from the
attester) increments the stored vouch count by exactly 1 and recomputes
the status from the threshold 3; concretely, from a freshly attested
record with zero vouches, vouches by bob, carol, dave and erin yield
counts 1, 2, 3, 4, with status SELF_ATTESTED (1) up to count 2,
COMMUNITY_VOUCHED (2) at count 3, and still COMMUNITY_VOUCHED at
count 4. -/
theorem c5_vouch_monotonicity :
    (∀ (s : DbState) (ch vid : String) (v : Row),
      (get_verification s ch).1 = some v → v.user_id ≠ vid →
      (ContentVerifier.vouch_for_content s ch vid).res =
        ⟨true, "Successfully vouched for content", some (v.vouches + 1)⟩ ∧
      (ContentVerifier.vouch_for_content s ch vid).state =
        { s with rows := s.rows.map (vouchUpd ch v) }) ∧
    ((get_verification demoAttested "fp").1 =
        some ⟨"fp", "uri", "alice", 1, "ctx", 1, 0, "2025-01-01T00:00:00"⟩ ∧
     demoV1.res = ⟨true, "Successfully vouched for content", some 1⟩ ∧
     demoV2.res.vouches = some 2 ∧
     (get_verification demoV2.state "fp").1 =
        some ⟨"fp", "uri", "alice", 1, "ctx", 1, 2, "2025-01-01T00:00:00"⟩ ∧
     demoV3.res.vouches = some 3 ∧
     (get_verification demoV3.state "fp").1 =
        some ⟨"fp", "uri", "alice", 1, "ctx", 2, 3, "2025-01-01T00:00:00"⟩ ∧
     demoV4.res.vouches = some 4 ∧
     (get_verification demoV4.state "fp").1 =
        some ⟨"fp", "uri", "alice", 1, "ctx", 2, 4, "2025-01-01T00:00:00"⟩) := by
  constructor
  · intro s ch vid v hv hne
    rw [vouch_ok_chr s ch vid v hv hne]
    exact ⟨rfl, rfl⟩
  · decide

/-- C5 witness: the general increment statement applied at the store
holding alice's record, vouched by bob. -/
theorem c5_vouch_monotonicity_witness :
    (ContentVerifier.vouch_for_content demoDbDup "fp" "bob").res =
      ⟨true, "Successfully vouched for content", some (demoRow.vouches + 1)⟩ ∧
    (ContentVerifier.vouch_for_content demoDbDup "fp" "bob").state =
      { demoDbDup with rows := demoDbDup.rows.map (vouchUpd "fp" demoRow) } :=
  c5_vouch_monotonicity.1 demoDbDup "fp" "bob" demoRow (by decide) (by decide)

/-- C6: a vouch whose voucher identity equals the stored record's
attester identity is rejected with the distinct self-vouch message, the
store (hence the vouch count) is unchanged, and nothing is logged. -/
theorem c6_self_vouch_rejected (s : DbState) (ch : String) (v : Row)
    (hv : (get_verification s ch).1 = some v) :
    ContentVerifier.vouch_for_content s ch v.user_id =
      ⟨s, ⟨false, "Cannot vouch for your own content", none⟩, []⟩ :=
  vouch_self_chr s ch v.user_id v hv rfl

/-- C6 witness: alice attested `fp`; alice's own vouch is rejected and
the store is unchanged. -/
theorem c6_self_vouch_rejected_witness :
    ContentVerifier.vouch_for_content demoDbDup "fp" demoRow.user_id =
      ⟨demoDbDup, ⟨false, "Cannot vouch for your own content", none⟩, []⟩ :=
  c6_self_vouch_rejected demoDbDup "fp" demoRow (by decide)

/-- C7 counterexample: with the store unavailable, attest returns the
same result dict as an attest rejected for a duplicate fingerprint —
the storage failure is not distinguishable by the caller — while the
error text goes only to the `st.error` side channel; and a vouch during
the outage masquerades as "Content not found". -/
theorem c7_storage_error_indistinguishable_cex :
    ContentVerifier.verify_human_content demoDbDown "fp" "u" "bob" 1 "c" =
      ⟨demoDbDown, ⟨false, "Failed to store verification", none⟩,
       ["Database error: connection failed"]⟩ ∧
    (ContentVerifier.verify_human_content demoDbDown "fp" "u" "bob" 1 "c").res =
      (ContentVerifier.verify_human_content demoDbDup "fp" "u" "bob" 1 "c").res ∧
    (ContentVerifier.vouch_for_content demoDbDown "fp" "bob").res =
      ⟨false, "Content not found", none⟩ := by
  decide

/-- C7 amended: when a storage call fails, the database layer catches
the raised error, logs it via `st.error`, and converts it to `None`;
the caller of attest then receives the same generic failure dict as for
a duplicate fingerprint, the caller of vouch receives "Content not
found", and lookup reports the content as unverified — no
StorageUnavailable kind reaches any caller. -/
theorem c7_storage_failure_behavior (s : DbState) (ch uri uid vid : String)
    (ct : Nat) (cc : String) (ha : s.avail = false) :
    (ContentVerifier.verify_human_content s ch uri uid ct cc).res =
      ⟨false, "Failed to store verification", none⟩ ∧
    (ContentVerifier.verify_human_content s ch uri uid ct cc).logs =
      ["Database error: " ++ DbError.msg .unavailable] ∧
    (ContentVerifier.vouch_for_content s ch vid).res =
      ⟨false, "Content not found", none⟩ ∧
    (ContentVerifier.check_verification_status s ch).1 =
      [("exists", .b false), ("verified", .b false)] := by
  have hst : (store_verification s ch uri uid ct cc).2.1 = none := by
    rw [store_verification_unavail s ch uri uid ct cc ha]
  have hget : (get_verification s ch).1 = none := by
    rw [get_verification_unavail s ch ha]
  refine ⟨(verify_res_fail s ch uri uid ct cc hst).1, ?_, ?_, ?_⟩
  · rw [(verify_res_fail s ch uri uid ct cc hst).2,
      store_verification_unavail s ch uri uid ct cc ha]
  · rw [vouch_none_chr s ch vid hget]
  · unfold ContentVerifier.check_verification_status
    simp [hget]

/-- C7 witness: the amended storage-failure behavior at the concrete
unavailable store. -/
theorem c7_storage_failure_behavior_witness :
    (ContentVerifier.verify_human_content demoDbDown "fp" "u" "bob" 1 "c").res =
      ⟨false, "Failed to store verification", none⟩ ∧
    (ContentVerifier.verify_human_content demoDbDown "fp" "u" "bob" 1 "c").logs =
      ["Database error: " ++ DbError.msg .unavailable] ∧
    (ContentVerifier.vouch_for_content demoDbDown "fp" "carol").res =
      ⟨false, "Content not found", none⟩ ∧
    (ContentVerifier.check_verification_status demoDbDown "fp").1 =
      [("exists", .b false), ("verified", .b false)] :=
  c7_storage_failure_behavior demoDbDown "fp" "u" "bob" "carol" 1 "c" rfl

/-- C9: the certificate projection applied to the status dict of any
existing record raises `KeyError("content_hash")` instead of returning
the display artifact, because `check_verification_status` omits the
`content_hash` key that `generate_certificate` dereferences for the
16-character fingerprint prefix. -/
theorem c9_certificate_keyerror (formatTs : String → String) (s : DbState)
    (ch : String) (v : Row) (hv : (get_verification s ch).1 = some v) :
    ContentVerifier.generate_certificate formatTs
        (ContentVerifier.check_verification_status s ch).1 =
      .error (.keyError "content_hash") := by
  unfold ContentVerifier.check_verification_status
  simp only [hv]
  rfl

/-- C9 witness: the KeyError at the concrete store holding alice's
record, with the identity timestamp formatter. -/
theorem c9_certificate_keyerror_witness :
    ContentVerifier.generate_certificate (fun t => t)
        (ContentVerifier.check_verification_status demoDbDup "fp").1 =
      .error (.keyError "content_hash") :=
  c9_certificate_keyerror (fun t => t) demoDbDup "fp" demoRow (by decide)

/-- C10: the try-bodies of `verify_human_content` and
`vouch_for_content` never let an exception escape — every run returns a
result dict with a Boolean success flag, the outer `except` handler is
never reached — and in particular a storage failure is converted into a
`success: False` dict rather than propagated. -/
theorem c10_no_exception_escapes :
    (∀ (s : DbState) (ch uri uid : String) (ct : Nat) (cc : String),
      ∃ out : VerifyOut,
        ContentVerifier.verify_human_content_body s ch uri uid ct cc = .ok out ∧
        ContentVerifier.verify_human_content s ch uri uid ct cc = out) ∧
    (∀ (s : DbState) (ch vid : String),
      ∃ out : VouchOut,
        ContentVerifier.vouch_for_content_body s ch vid = .ok out ∧
        ContentVerifier.vouch_for_content s ch vid = out) ∧
    (∀ (s : DbState) (ch uri uid vid : String) (ct : Nat) (cc : String),
      s.avail = false →
      (ContentVerifier.verify_human_content s ch uri uid ct cc).res.success = false ∧
      (ContentVerifier.vouch_for_content s ch vid).res.success = false) := by
  refine ⟨?_, ?_, ?_⟩
  · intro s ch uri uid ct cc
    cases h : (store_verification s ch uri uid ct cc).2.1 with
    | none =>
      have hbody : ContentVerifier.verify_human_content_body s ch uri uid ct cc =
          .ok ⟨(store_verification s ch uri uid ct cc).1,
               ⟨false, "Failed to store verification", none⟩,
               (store_verification s ch uri uid ct cc).2.2⟩ := by
        unfold ContentVerifier.verify_human_content_body
        simp [h]
      exact ⟨_, hbody, by unfold ContentVerifier.verify_human_content; rw [hbody]⟩
    | some r =>
      have hbody : ContentVerifier.verify_human_content_body s ch uri uid ct cc =
          .ok ⟨(store_verification s ch uri uid ct cc).1,
               ⟨true, "Content verified successfully", some r⟩,
               (store_verification s ch uri uid ct cc).2.2⟩ := by
        unfold ContentVerifier.verify_human_content_body
        simp [h]
      exact ⟨_, hbody, by unfold ContentVerifier.verify_human_content; rw [hbody]⟩
  · intro s ch vid
    cases hg : (get_verification s ch).1 with
    | none =>
      have hbody : ContentVerifier.vouch_for_content_body s ch vid =
          .ok ⟨s, ⟨false, "Content not found", none⟩, (get_verification s ch).2⟩ := by
        unfold ContentVerifier.vouch_for_content_body
        simp [hg]
      exact ⟨_, hbody, by unfold ContentVerifier.vouch_for_content; rw [hbody]⟩
    | some v =>
      by_cases he : v.user_id == vid
      · have hbody : ContentVerifier.vouch_for_content_body s ch vid =
            .ok ⟨s, ⟨false, "Cannot vouch for your own content", none⟩,
                 (get_verification s ch).2⟩ := by
          unfold ContentVerifier.vouch_for_content_body
          simp [hg, he]
        exact ⟨_, hbody, by unfold ContentVerifier.vouch_for_content; rw [hbody]⟩
      · cases ha : (add_vouch s ch vid).2.1 with
        | none =>
          have hbody : ContentVerifier.vouch_for_content_body s ch vid =
              .ok ⟨(add_vouch s ch vid).1, ⟨false, "Failed to add vouch", none⟩,
                   (get_verification s ch).2 ++ (add_vouch s ch vid).2.2⟩ := by
            unfold ContentVerifier.vouch_for_content_body
            simp [hg, he, ha]
          exact ⟨_, hbody, by unfold ContentVerifier.vouch_for_content; rw [hbody]⟩
        | some r =>
          have hbody : ContentVerifier.vouch_for_content_body s ch vid =
              .ok ⟨(add_vouch s ch vid).1,
                   ⟨true, "Successfully vouched for content", some r.vouches⟩,
                   (get_verification s ch).2 ++ (add_vouch s ch vid).2.2⟩ := by
            unfold ContentVerifier.vouch_for_content_body
            simp [hg, he, ha]
          exact ⟨_, hbody, by unfold ContentVerifier.vouch_for_content; rw [hbody]⟩
  · intro s ch uri uid vid ct cc ha
    have hst : (store_verification s ch uri uid ct cc).2.1 = none := by
      rw [store_verification_unavail s ch uri uid ct cc ha]
    have hget : (get_verification s ch).1 = none := by
      rw [get_verification_unavail s ch ha]
    exact ⟨by rw [(verify_res_fail s ch uri uid ct cc hst).1],
      by rw [vouch_none_chr s ch vid hget]⟩

/-- C10 witness: the no-escape statement and the storage-failure
conversion at the concrete unavailable store. -/
theorem c10_no_exception_escapes_witness :
    (∃ out : VerifyOut,
      ContentVerifier.verify_human_content_body demoDbDown "fp" "u" "bob" 1 "c" =
        .ok out ∧
      ContentVerifier.verify_human_content demoDbDown "fp" "u" "bob" 1 "c" = out) ∧
    ((ContentVerifier.verify_human_content demoDbDown "fp" "u" "bob" 1 "c").res.success =
        false ∧
     (ContentVerifier.vouch_for_content demoDbDown "fp" "bob").res.success = false) :=
  ⟨c10_no_exception_escapes.1 demoDbDown "fp" "u" "bob" 1 "c",
   c10_no_exception_escapes.2.2 demoDbDown "fp" "u" "bob" "bob" 1 "c" rfl⟩

end MetaSignet
